import Mathlib

/-!
# Verification of the wiki-edit revision pipeline

A shallow embedding in Lean of the revision-change extraction and
classification pipeline (`scripts/get_revisions.py`, `scripts/init_db.py`,
`main.py`).  Python strings are modelled as `List Char` (`Str`), Python
floats carrying model scores as exact rationals `ℚ`, and the SQLite store
as a list of rows.  External collaborators (the bias/topic/stance models,
the markup stripper, the wikitext diff library, the revision-history API)
are modelled as oracle parameters: the pipeline's own control flow and
arithmetic are translated from the source.
-/

/-- Python `str` modelled as a list of characters. -/
abbrev Str := List Char

/-- Python `str.strip()` / truthiness of stripped text: drop leading and
trailing whitespace. -/
def pstrip (s : Str) : Str :=
  ((s.dropWhile Char.isWhitespace).reverse.dropWhile Char.isWhitespace).reverse

/-- Python's builtin `abs` on a (rational-modelled) float. -/
def pyabs (q : ℚ) : ℚ := if q < 0 then -q else q

/-- The significance filter of `process_batch`
(`get_revisions.py` lines 246-251):

    diff_score = score_after - score_before
    save_change = False
    if abs(diff_score) > 0.1: save_change = True
    elif score_after > 0.3: save_change = True

Scores are rationals (exact embedding of the float arithmetic). -/
def saveChange (score_before score_after : ℚ) : Bool :=
  let diff_score := score_after - score_before
  if pyabs diff_score > 0.1 then true
  else if score_after > 0.3 then true
  else false

/-! ## IP-address detection (`_is_ip_address`, `get_revisions.py` lines 108-113)

The function tests the author string against two anchored regexes:

    ipv4_pattern = ^\d{1,3}\.\d{1,3}\.\d{1,3}\.\d{1,3}$
    ipv6_pattern = ^\[?([0-9a-fA-F:]+){1,4}(:[0-9a-fA-F]{1,4}){1,4}\]?$

Both are embedded by their language (the set of strings the anchored
pattern accepts). -/

/-- Split a character list at every `'.'` (the dot is a literal separator
in the ipv4 pattern). -/
def splitOnDot : Str → List Str
  | [] => [[]]
  | c :: rest =>
    if c = '.' then [] :: splitOnDot rest
    else
      match splitOnDot rest with
      | [] => [[c]]
      | g :: gs => (c :: g) :: gs

/-- Language of `^\d{1,3}\.\d{1,3}\.\d{1,3}\.\d{1,3}$`: four dot-separated
runs of one to three decimal digits. -/
def ipv4Match (s : Str) : Bool :=
  let parts := splitOnDot s
  parts.length = 4 &&
    parts.all (fun p => 1 ≤ p.length && p.length ≤ 3 && p.all Char.isDigit)

/-- Characters of the class `[0-9a-fA-F]`. -/
def isHexDigit (c : Char) : Bool :=
  c.isDigit || ('a' ≤ c && c ≤ 'f') || ('A' ≤ c && c ≤ 'F')

/-- Characters of the class `[0-9a-fA-F:]`. -/
def isHexOrColon (c : Char) : Bool := isHexDigit c || c = ':'

/-- Split a character list at every `':'`. -/
def splitOnColon : Str → List Str
  | [] => [[]]
  | c :: rest =>
    if c = ':' then [] :: splitOnColon rest
    else
      match splitOnColon rest with
      | [] => [[c]]
      | g :: gs => (c :: g) :: gs

/-- Language of `(:[0-9a-fA-F]{1,4}){1,4}`: one to four groups, each a
colon followed by one to four hex digits. -/
def ipv6SuffixMatch (s : Str) : Bool :=
  match splitOnColon s with
  | [] :: groups =>
    1 ≤ groups.length && groups.length ≤ 4 &&
      groups.all (fun g => 1 ≤ g.length && g.length ≤ 4 && g.all isHexDigit)
  | _ => false

/-- Language of `([0-9a-fA-F:]+){1,4}(:[0-9a-fA-F]{1,4}){1,4}` — since the
first group class contains `':'`, one to four repetitions of it collapse to
"a nonempty run over `[0-9a-fA-F:]`", followed (at some split point, tried
exhaustively as a backtracking engine would) by the suffix groups. -/
def ipv6InnerMatch (s : Str) : Bool :=
  (List.range s.length).any fun i =>
    1 ≤ i && (s.take i).all isHexOrColon && ipv6SuffixMatch (s.drop i)

/-- Language of the full ipv6 pattern with its optional anchored brackets
`\[? ... \]?`.  Stripping a present bracket is forced: neither `'['` nor
`']'` belongs to any inner character class. -/
def ipv6Match (s : Str) : Bool :=
  let s1 := match s with | '[' :: rest => rest | _ => s
  let s2 := if s1.getLast? = some ']' then s1.dropLast else s1
  ipv6InnerMatch s2

/-- `_is_ip_address(user_string)` (`get_revisions.py` lines 108-113):
true when the ipv4 pattern or the ipv6 pattern matches. -/
def _is_ip_address (user_string : Str) : Bool :=
  ipv4Match user_string || ipv6Match user_string

example : saveChange 0.2 0.35 = true := by with_unfolding_all rfl
example : saveChange 0.2 0.25 = false := by with_unfolding_all rfl
example : _is_ip_address "999.999.999.999".data = true := by decide
example : _is_ip_address "Jane_Doe".data = false := by decide
example : _is_ip_address "192.168.1.1".data = true := by decide
example : _is_ip_address "2001:db8::1".data = true := by decide

/-! ## External collaborators as oracles

`load_models` installs two per-process pipelines; `mwparserfromhell`
strips markup.  Each is a black-box text function; the record bundles
them so the pipeline's own logic can be stated for every behaviour of
the collaborators. -/

/-- Oracles for the external services used by `process_batch`:
`clean` is `mwparserfromhell.parse(t).strip_code().strip()` (lines
235-236), `biasScore`/`biasLabel` the bias pipeline's aggregation in
`get_bias_data` (lines 55-64), `topic`/`stance` the zero-shot pipeline's
top label in `predict_topic`/`predict_political_stance`. -/
structure Oracles where
  clean : Str → Str
  biasScore : Str → ℚ
  biasLabel : Str → Str
  topic : Str → Str
  stance : Str → Str

/-- `get_bias_data(text, device_id)` (lines 46-68): empty or
whitespace-only text short-circuits to `(0.0, "Neutral")`, otherwise the
bias model scores the text. -/
def get_bias_data (o : Oracles) (text : Str) : ℚ × Str :=
  if pstrip text = [] then (0, "Neutral".data)
  else (o.biasScore text, o.biasLabel text)

/-- `predict_topic(text, device_id)` (lines 70-87): empty or
whitespace-only text short-circuits to `"N/A"`. -/
def predict_topic (o : Oracles) (text : Str) : Str :=
  if pstrip text = [] then "N/A".data else o.topic text

/-- `predict_political_stance(text, device_id)` (lines 89-106). -/
def predict_political_stance (o : Oracles) (text : Str) : Str :=
  if pstrip text = [] then "N/A".data else o.stance text

/-! ## Context builder (`process_batch` lines 260-282) -/

/-- Start offsets of the matches `re.finditer(re.escape(after_text), s)`
returns, scanning left to right without overlap, from position `pos`;
`fuel` bounds the scan (`s.length + 1` from position 0 suffices since
every step advances). -/
def findIterAux (pat s : Str) : Nat → Nat → List Nat
  | 0, _ => []
  | fuel + 1, pos =>
    if s.length < pos then []
    else if List.isPrefixOf pat (s.drop pos) then
      pos :: findIterAux pat s fuel (pos + max 1 pat.length)
    else findIterAux pat s fuel (pos + 1)

/-- All (non-overlapping) occurrence offsets of `pat` in `s`, as
`[m.start() for m in re.finditer(re.escape(pat), s)]` (line 265). -/
def findIter (pat s : Str) : List Nat := findIterAux pat s (s.length + 1) 0

/-- Python `abs(x - hint)` on int offsets. -/
def natDist (a b : Nat) : Nat := max a b - min a b

/-- `min(matches, key=lambda x: abs(x - hint_idx))` (line 276): the first
offset of smallest distance to the hint. -/
def minByDist (hint : Nat) (m0 : Nat) (rest : List Nat) : Nat :=
  rest.foldl (fun best x => if natDist x hint < natDist best hint then x else best) m0

/-- The context window slice `curr_content[start:end]` with
`start = max(0, best_idx - int(len(after_text) * 0.5))` and
`end = min(len(curr_content), best_idx + len(after_text) + int(len(after_text) * 0.5))`
(lines 280-282); natural subtraction supplies the clamp at 0. -/
def window (curr : Str) (best_idx L : Nat) : Str :=
  let start := best_idx - L / 2
  let stop := min curr.length (best_idx + L + L / 2)
  (curr.drop start).take (stop - start)

/-- The context construction of `process_batch` (lines 260-282):
start from the raw after-text (or before-text when the after-text is
whitespace-only); when the after-text occurs in the current content,
replace it by a window around the chosen occurrence, disambiguated —
when several occurrences exist and the before-text is non-blank and the
previous content nonempty — towards the first occurrence of the
before-text in the previous content. -/
def build_context (after_text before_text curr_content prev_content : Str) : Str :=
  let text_for_analysis := if pstrip after_text ≠ [] then after_text else before_text
  if pstrip after_text ≠ [] ∧ curr_content ≠ [] then
    match findIter after_text curr_content with
    | [] => text_for_analysis
    | m0 :: rest =>
      let best_idx :=
        if rest ≠ [] ∧ pstrip before_text ≠ [] ∧ prev_content ≠ [] then
          match findIter before_text prev_content with
          | [] => m0
          | h0 :: _ => minByDist h0 m0 rest
        else m0
      window curr_content best_idx after_text.length
  else text_for_analysis

example : findIter "bc".data "abcbc".data = [1, 3] := by decide
example : build_context "bc".data "x".data "abcd".data [] = "abcd".data := by decide
example : build_context " ".data "x".data "abcd".data [] = "x".data := by decide

/-! ## Structured diff extraction (`get_structured_changes`, lines 115-158)

`StructuredEditTypes(...).get_diff()` is the external `mwedittypes`
library; its result (or `none` for the exception path of lines 116-121)
is the input of the extraction logic, which is translated below. -/

/-- One change unit, as appended to `changes` (lines 142-147, 153-157). -/
structure Change where
  type : Str
  before : Str
  after : Str
  desc : Str
deriving DecidableEq

/-- One entry of `diff['text-edits']`: the fields the code reads. -/
structure TextEdit where
  type : Str
  edittype : Str
  text : Str
deriving DecidableEq

/-- One tuple of `node.changes` (lines 128-140): the code branches on
`change[0]` (`'parameter'`, `'title'`, or any other field name) and reads
`change[1]`/`change[2]`, each possibly absent or falsy (`none`).  A
parameter entry is a (name, value) pair; the fallback branch stringifies
the raw entry, modelled as the already-stringified text. -/
inductive ChangeTuple where
  | parameter (b a : Option (Str × Str)) : ChangeTuple
  | title (b a : Option Str) : ChangeTuple
  | other (field : Str) (b a : Option Str) : ChangeTuple
deriving DecidableEq

/-- One entry of `diff['node-edits']`: the fields the code reads. -/
structure NodeEdit where
  type : Str
  edittype : Str
  name : Str
  changes : List ChangeTuple
deriving DecidableEq

/-- The diff structure returned by `et.get_diff()`. -/
structure DiffResult where
  nodeEdits : List NodeEdit
  textEdits : List TextEdit
deriving DecidableEq

/-- `change[0]` of a tuple. -/
def tupleField : ChangeTuple → Str
  | .parameter _ _ => "parameter".data
  | .title _ _ => "title".data
  | .other f _ _ => f

/-- `before_val` as assigned by lines 130-140 (default `""`). -/
def tupleBefore : ChangeTuple → Str
  | .parameter b _ => (b.map Prod.snd).getD []
  | .title b _ => b.getD []
  | .other _ b _ => b.getD []

/-- `after_val` as assigned by lines 131-140 (default `""`). -/
def tupleAfter : ChangeTuple → Str
  | .parameter _ a => (a.map Prod.snd).getD []
  | .title _ a => a.getD []
  | .other _ _ a => a.getD []

/-- The node-edit loop body (lines 125-147): only `Template`, `Wikilink`
and `Reference` nodes with edittype `change` contribute; tuples whose
before and after values coincide are dropped (line 141); the emitted
type is `f"Node:{node.type}:{field}"` and the description
`f"{node.type} {node.name} changed {field}"`. -/
def nodeEditChanges (node : NodeEdit) : List Change :=
  if (node.type = "Template".data ∨ node.type = "Wikilink".data ∨
      node.type = "Reference".data) ∧ node.edittype = "change".data then
    node.changes.filterMap fun t =>
      if tupleBefore t = tupleAfter t then none
      else some { type := "Node:".data ++ node.type ++ ":".data ++ tupleField t,
                  before := tupleBefore t, after := tupleAfter t,
                  desc := node.type ++ " ".data ++ node.name ++
                          " changed ".data ++ tupleField t }
  else []

/-- The text-edit loop body (lines 150-157): sentence-level inserts,
removals and changes; a change places `text_edit.text` on both sides. -/
def textEditToChange (te : TextEdit) : Option Change :=
  if te.type = "Sentence".data then
    if te.edittype = "insert".data then
      some { type := "Text:Sentence:Insert".data, before := [],
             after := te.text, desc := "Inserted Sentence".data }
    else if te.edittype = "remove".data then
      some { type := "Text:Sentence:Remove".data, before := te.text,
             after := [], desc := "Removed Sentence".data }
    else if te.edittype = "change".data then
      some { type := "Text:Sentence:Change".data, before := te.text,
             after := te.text, desc := "Changed Sentence".data }
    else none
  else none

/-- `get_structured_changes(prev_content, curr_content, lang)`
(lines 115-158) applied to the library's diff: `none` is the exception
path returning `[]`; otherwise node edits contribute first, then text
edits, in order. -/
def get_structured_changes : Option DiffResult → List Change
  | none => []
  | some d => (d.nodeEdits.map nodeEditChanges).flatten ++
              d.textEdits.filterMap textEditToChange

/-! ## Composite identifiers and rows -/

/-- Python `f"{n:04d}"`: decimal digits zero-padded to width 4. -/
def pad4 (n : Nat) : Str :=
  let s := (toString n).data
  List.replicate (4 - s.length) '0' ++ s

/-- The composite id `f"{revid}-{sub_id_counter:04d}"` (line 253). -/
def mkSubId (revid seq : Nat) : Str :=
  (toString revid).data ++ '-' :: pad4 seq

/-- One row of the `revisions` store, with the columns the pipeline's
`INSERT OR REPLACE` statement supplies (lines 288-300). -/
structure Row where
  id : Str
  original_revid : Nat
  article_url : Str
  user : Str
  timestamp : Str
  diff_before : Str
  diff_after : Str
  change_type : Str
  change_desc : Str
  bias_score_before : ℚ
  bias_score_after : ℚ
  bias_delta : ℚ
  bias_label_before : Str
  bias_label_after : Str
  ai_topic : Str
  ai_political_stance : Str
  is_ip : Nat
  content : Str
deriving DecidableEq

/-- The per-change-unit body of `process_batch`'s inner loop
(lines 230-300): clean both sides, discard when both are blank, score
both sides, apply the significance filter, and for a saved change build
the row exactly as the `INSERT OR REPLACE` statement binds it.  `seq` is
the value of `sub_id_counter` at this change. -/
def processChange (o : Oracles) (revid : Nat)
    (article_url user timestamp curr_content prev_content : Str)
    (seq : Nat) (ch : Change) : Option Row :=
  let clean_before := o.clean ch.before
  let clean_after := o.clean ch.after
  if clean_before = [] ∧ clean_after = [] then none
  else
    let sb := get_bias_data o clean_before
    let sa := get_bias_data o clean_after
    let diff_score := sa.1 - sb.1
    if saveChange sb.1 sa.1 then
      let sub_id := mkSubId revid seq
      let is_ip := _is_ip_address user
      let ai_context := build_context ch.after ch.before curr_content prev_content
      some { id := sub_id
             original_revid := revid
             article_url := article_url
             user := user
             timestamp := timestamp
             diff_before := ch.before
             diff_after := ch.after
             change_type := ch.type
             change_desc := ch.desc
             bias_score_before := sb.1
             bias_score_after := sa.1
             bias_delta := diff_score
             bias_label_before := sb.2
             bias_label_after := sa.2
             ai_topic := predict_topic o ai_context
             ai_political_stance := predict_political_stance o ai_context
             is_ip := if is_ip then 1 else 0
             content := ai_context }
    else none

/-! ## Revision fetch loop and the per-article / per-batch pipeline
(`process_batch`, lines 160-307) -/

/-- One revision as read from an API response entry (`revid`, `user`,
`timestamp`, and the content of its main slot, lines 215-223). -/
structure Rev where
  revid : Nat
  user : Str
  timestamp : Str
  content : Str
deriving DecidableEq

/-- One iteration's outcome of the `while True` request loop of
`process_batch` (lines 189-211): a request failure (line 195), a
missing page (`page_ids` empty or `"-1"`, line 200), or a page of
revisions together with whether the response carries a `continue`
token (line 208). -/
inductive FetchResult where
  | err : FetchResult
  | notFound : FetchResult
  | page (revs : List Rev) (hasCont : Bool) : FetchResult
deriving DecidableEq

/-- The `while True` fetch loop (lines 189-211) over the sequence of
responses the API returns: an error or a missing page breaks out with
the revisions accumulated so far; a page extends them and the loop goes
on only while a `continue` token is present. -/
def fetchRevisionsAux (acc : List Rev) : List FetchResult → List Rev
  | [] => acc
  | .err :: _ => acc
  | .notFound :: _ => acc
  | .page revs cont :: rest =>
    if cont then fetchRevisionsAux (acc ++ revs) rest else acc ++ revs

/-- `revisions_info` at the end of the fetch loop. -/
def fetchRevisions (responses : List FetchResult) : List Rev :=
  fetchRevisionsAux [] responses

/-- The wikitext diff library as an oracle: `prev_content`, `curr_content`
to the diff it reports (`none` when it raises). -/
abbrev DiffOracle := Str → Str → Option DiffResult

/-- Pair each revision with the content of its successor in the list —
`revisions_info[i+1]` is the *previous* revision, newest first — or `""`
for the last one (lines 215-223). -/
def revisionPairs : List Rev → List (Rev × Str)
  | [] => []
  | r :: rest =>
    (r, match rest with | [] => [] | r2 :: _ => r2.content) :: revisionPairs rest

/-- The change-unit loop of one revision (lines 229-300): fold over the
extracted changes with `sub_id_counter` starting at 1, incrementing only
when a change is saved.  The result lists the rows handed to the
persistence layer, in order. -/
def processRevChanges (o : Oracles) (revid : Nat)
    (url user ts curr prev : Str) : List Change → Nat → List Row
  | [], _ => []
  | ch :: rest, seq =>
    match processChange o revid url user ts curr prev seq ch with
    | some row => row :: processRevChanges o revid url user ts curr prev rest (seq + 1)
    | none => processRevChanges o revid url user ts curr prev rest seq

/-- One iteration of the revision loop (lines 215-300). -/
def processRevision (o : Oracles) (diffO : DiffOracle) (url : Str)
    (rev : Rev) (prev_content : Str) : List Row :=
  let changes := get_structured_changes (diffO prev_content rev.content)
  processRevChanges o rev.revid url rev.user rev.timestamp
    rev.content prev_content changes 1

/-- `process_batch` restricted to one article (lines 169-300): fetch its
revisions (the loop aborts on error), then process every adjacent pair.
The result lists the rows handed to the persistence layer. -/
def processArticle (o : Oracles) (diffO : DiffOracle) (url : Str)
    (responses : List FetchResult) : List Row :=
  let revs := fetchRevisions responses
  ((revisionPairs revs).map fun p => processRevision o diffO url p.1 p.2).flatten

/-- The full worker loop of `process_batch` (lines 169-300) over its
partition: articles are processed in order, each independently;
`responsesFor` gives the API's responses for an article's url. -/
def process_batch (o : Oracles) (diffO : DiffOracle)
    (responsesFor : Str → List FetchResult) (articles : List (Str × Str)) :
    List Row :=
  (articles.map fun a => processArticle o diffO a.1 (responsesFor a.1)).flatten

/-! ## Persistence (`init_db.py` lines 23-45, `get_revisions.py` lines
287-304) -/

/-- The columns of the `revisions` table that `init_db` creates
(`init_db.py` lines 23-45), in order. -/
def initDbRevisionsColumns : List Str :=
  ["id", "original_revid", "article_url", "user", "timestamp",
   "diff_before", "diff_after", "change_type", "change_desc",
   "bias_score_before", "bias_score_after", "bias_delta",
   "bias_label_before", "bias_label_after", "ai_topic", "is_ip",
   "manual_bias", "manual_topic"].map String.data

/-- The columns the pipeline's `INSERT OR REPLACE INTO revisions (...)`
statement names (`get_revisions.py` lines 288-294), in order. -/
def upsertColumns : List Str :=
  ["id", "original_revid", "article_url", "user", "timestamp",
   "diff_before", "diff_after", "change_type", "change_desc",
   "bias_score_before", "bias_score_after", "bias_delta",
   "bias_label_before", "bias_label_after", "ai_topic",
   "ai_political_stance", "is_ip", "content"].map String.data

/-- The columns of the persisted-store contract for `revisions`
(spec §6), in order. -/
def specRevisionsColumns : List Str :=
  ["id", "original_revid", "article_url", "user", "timestamp",
   "diff_before", "diff_after", "change_type", "change_desc",
   "bias_score_before", "bias_score_after", "bias_delta",
   "bias_label_before", "bias_label_after", "ai_topic",
   "ai_political_stance", "is_ip", "content"].map String.data

/-- SQLite `INSERT OR REPLACE` on a table whose primary key is `id`:
any existing row with the same key is deleted and the new row inserted. -/
def insertOrReplace (db : List Row) (r : Row) : List Row :=
  db.filter (fun x => x.id ≠ r.id) ++ [r]

/-- `c.execute('INSERT OR REPLACE INTO revisions (...) VALUES ...')`
against a table with columns `tableCols`: when the statement names a
column the table lacks, SQLite raises `sqlite3.OperationalError`, which
line 303 catches and logs — the store is left unchanged.  Otherwise the
row is upserted. -/
def execUpsert (tableCols : List Str) (db : List Row) (r : Row) : List Row :=
  if upsertColumns.all (fun c => tableCols.contains c) then insertOrReplace db r
  else db

/-! ## Work partitioning (`get_revisions`, lines 333-360) and the
invocation surface (`main.py`, lines 50-68) -/

/-- The per-chunk lengths of `np.array_split(xs, n)`: `divmod(M, n)`
gives `l, r`; the first `r` chunks take `l + 1` elements, the remaining
`n - r` take `l`. -/
def splitSizes (m n : Nat) : List Nat :=
  List.replicate (m % n) (m / n + 1) ++ List.replicate (n - m % n) (m / n)

/-- Cut `xs` into consecutive chunks of the given sizes. -/
def chunksOfSizes {α : Type} : List Nat → List α → List (List α)
  | [], _ => []
  | s :: rest, xs => xs.take s :: chunksOfSizes rest (xs.drop s)

/-- `np.array_split(articles_from_db, num_gpus)` (line 339): `n`
contiguous chunks of near-equal size. -/
def arraySplit {α : Type} (xs : List α) (n : Nat) : List (List α) :=
  chunksOfSizes (splitSizes xs.length n) xs

/-- The keyword parameters `def get_revisions(debug_mode=None, limit=None)`
accepts (`get_revisions.py` line 310). -/
def getRevisionsParams : List Str :=
  ["debug_mode", "limit"].map String.data

/-- The keyword arguments the `revision-fetch` dispatcher supplies in
`get_revisions(debug_mode=debug_mode, limit=limit, workers_per_gpu=workers_per_gpu)`
(`main.py` line 68). -/
def revisionFetchCallKwargs : List Str :=
  ["debug_mode", "limit", "workers_per_gpu"].map String.data

/-- A Python keyword call is well-formed only when the callee accepts
every supplied keyword (otherwise `TypeError` before the body runs). -/
def revisionFetchCallWellFormed : Bool :=
  revisionFetchCallKwargs.all (fun k => getRevisionsParams.contains k)

/-! ## Supporting lemmas -/

theorem pyabs_eq_abs (q : ℚ) : pyabs q = |q| := by
  unfold pyabs
  rcases lt_or_ge q 0 with h | h
  · rw [if_pos h, abs_of_neg h]
  · rw [if_neg (not_lt.mpr h), abs_of_nonneg h]

theorem splitOnDot_no_dot (p : Str) (hp : '.' ∉ p) : splitOnDot p = [p] := by
  induction p with
  | nil => rfl
  | cons c rest ih =>
    have hc : ¬ c = '.' := fun h => hp (h ▸ List.mem_cons_self c rest)
    have hrest : '.' ∉ rest := fun h => hp (List.mem_cons_of_mem c h)
    simp only [splitOnDot, if_neg hc, ih hrest]

theorem splitOnDot_append (p rest : Str) (hp : '.' ∉ p) :
    splitOnDot (p ++ '.' :: rest) = p :: splitOnDot rest := by
  induction p with
  | nil => simp [splitOnDot]
  | cons c q ih =>
    have hc : ¬ c = '.' := fun h => hp (h ▸ List.mem_cons_self c q)
    have hq : '.' ∉ q := fun h => hp (List.mem_cons_of_mem c h)
    simp only [List.cons_append, splitOnDot, if_neg hc, List.append_eq]
    rw [ih hq]

/-! ## C1: the significance filter -/

/-- C1: a change unit is saved iff `abs(score_after - score_before) > 0.1`
or `score_after > 0.3`; in particular `is_significant(0.2, 0.35)` is true,
`is_significant(0.2, 0.25)` is false, `is_significant(0.0, 0.35)` is true,
and `is_significant(0.4, 0.41)` is true. -/
theorem saveChange_iff_and_examples :
    (∀ score_before score_after : ℚ,
      saveChange score_before score_after = true ↔
        (|score_after - score_before| > 0.1 ∨ score_after > 0.3))
    ∧ saveChange 0.2 0.35 = true
    ∧ saveChange 0.2 0.25 = false
    ∧ saveChange 0.0 0.35 = true
    ∧ saveChange 0.4 0.41 = true := by
  refine ⟨?_, by with_unfolding_all rfl, by with_unfolding_all rfl,
    by with_unfolding_all rfl, by with_unfolding_all rfl⟩
  intro b a
  simp only [saveChange]
  rw [pyabs_eq_abs]
  split_ifs with h1 h2
  · simp [h1]
  · simp [h2]
  · simp [h1, h2]

/-! ## C10: IP-address detection accepts out-of-range octets -/

/-- C10: every string of exactly four dot-separated runs of one to three
decimal digits is classified as an IP author (no per-octet ≤ 255 check);
in particular `"999.999.999.999"` is. -/
theorem is_ip_address_of_four_digit_runs :
    (∀ p1 p2 p3 p4 : Str,
      (1 ≤ p1.length ∧ p1.length ≤ 3 ∧ ∀ c ∈ p1, c.isDigit) →
      (1 ≤ p2.length ∧ p2.length ≤ 3 ∧ ∀ c ∈ p2, c.isDigit) →
      (1 ≤ p3.length ∧ p3.length ≤ 3 ∧ ∀ c ∈ p3, c.isDigit) →
      (1 ≤ p4.length ∧ p4.length ≤ 3 ∧ ∀ c ∈ p4, c.isDigit) →
      _is_ip_address (p1 ++ '.' :: (p2 ++ '.' :: (p3 ++ '.' :: p4))) = true)
    ∧ _is_ip_address "999.999.999.999".data = true := by
  constructor
  · intro p1 p2 p3 p4 h1 h2 h3 h4
    have nodot : ∀ p : Str, (∀ c ∈ p, c.isDigit) → '.' ∉ p := by
      intro p hd hmem
      have := hd '.' hmem
      simp at this
    unfold _is_ip_address
    rw [Bool.or_eq_true]
    left
    unfold ipv4Match
    rw [splitOnDot_append _ _ (nodot p1 h1.2.2),
        splitOnDot_append _ _ (nodot p2 h2.2.2),
        splitOnDot_append _ _ (nodot p3 h3.2.2),
        splitOnDot_no_dot _ (nodot p4 h4.2.2)]
    simp only [List.length_cons, List.length_nil, List.all_cons, List.all_nil,
      Bool.and_eq_true, Bool.and_true, decide_eq_true_eq, List.all_eq_true]
    exact ⟨trivial, ⟨⟨h1.1, h1.2.1⟩, h1.2.2⟩, ⟨⟨h2.1, h2.2.1⟩, h2.2.2⟩,
      ⟨⟨h3.1, h3.2.1⟩, h3.2.2⟩, ⟨⟨h4.1, h4.2.1⟩, h4.2.2⟩⟩
  · decide

/-- Witness for C10: the four-runs hypothesis holds at `"999"` four times,
and the classification accepts the assembled string. -/
theorem is_ip_address_of_four_digit_runs_witness :
    _is_ip_address ("999".data ++ '.' :: ("999".data ++ '.' ::
      ("999".data ++ '.' :: "999".data))) = true :=
  is_ip_address_of_four_digit_runs.1 "999".data "999".data "999".data "999".data
    (by decide) (by decide) (by decide) (by decide)

/-! ## C3 / C2: the store schema `init_db` creates does not match the
pipeline's upsert statement -/

/-- C3 (code evaluation): the `revisions` table `init_db` creates is not
the contract's column set — the upsert's columns `ai_political_stance`
and `content` are missing from it (and it carries `manual_bias`,
`manual_topic` instead), so the pipeline's `INSERT OR REPLACE` names
columns that do not exist. -/
theorem initDb_schema_mismatch :
    initDbRevisionsColumns ≠ specRevisionsColumns
    ∧ ("ai_political_stance".data ∈ upsertColumns
        ∧ "ai_political_stance".data ∉ initDbRevisionsColumns)
    ∧ ("content".data ∈ upsertColumns
        ∧ "content".data ∉ initDbRevisionsColumns)
    ∧ ("manual_bias".data ∈ initDbRevisionsColumns
        ∧ "manual_bias".data ∉ specRevisionsColumns)
    ∧ upsertColumns.all (fun c => initDbRevisionsColumns.contains c) = false := by
  decide

/-- C2 (code evaluation): against the table `init_db` creates, every
pipeline upsert raises `sqlite3.OperationalError` (caught and logged at
line 303) and leaves the store unchanged — processing the same
(revision, sequence) pair twice leaves zero rows for its id, not one. -/
theorem upsert_against_initDb_schema_is_noop :
    ∀ (db : List Row) (r1 r2 : Row),
      execUpsert initDbRevisionsColumns
        (execUpsert initDbRevisionsColumns db r1) r2 = db := by
  intro db r1 r2
  unfold execUpsert
  rw [if_neg (by decide), if_neg (by decide)]

/-! ## C4: the revision-fetch dispatcher calls `get_revisions` with a
keyword it does not accept -/

/-- C4 (code evaluation): the `revision-fetch` dispatch supplies the
keyword `workers_per_gpu`, which `get_revisions` does not accept — the
call raises `TypeError` for every invocation. -/
theorem revisionFetch_call_mismatch :
    revisionFetchCallWellFormed = false
    ∧ "workers_per_gpu".data ∈ revisionFetchCallKwargs
    ∧ "workers_per_gpu".data ∉ getRevisionsParams := by
  decide

/-! ## C5: `bias_delta` is always `bias_score_after - bias_score_before` -/

/-- C5: every row the per-change body hands to the persistence layer
carries `bias_delta` equal to `bias_score_after - bias_score_before` of
that same row. -/
theorem processChange_bias_delta :
    ∀ (o : Oracles) (revid : Nat) (url user ts curr prev : Str) (seq : Nat)
      (ch : Change) (row : Row),
      processChange o revid url user ts curr prev seq ch = some row →
      row.bias_delta = row.bias_score_after - row.bias_score_before := by
  intro o revid url user ts curr prev seq ch row h
  simp only [processChange] at h
  split at h
  · exact absurd h (by simp)
  · split at h
    · rw [Option.some.injEq] at h
      subst h
      rfl
    · exact absurd h (by simp)

/-- Concrete oracles for witnesses: identity cleaner, constant score 1/2,
constant labels. -/
def testOracles : Oracles where
  clean := fun s => s
  biasScore := fun _ => 1/2
  biasLabel := fun _ => "Slightly Biased".data
  topic := fun _ => "Politics".data
  stance := fun _ => "Left".data

/-- A concrete change unit: an inserted sentence `"abc"`. -/
def ch5 : Change :=
  { type := "Text:Sentence:Insert".data, before := [],
    after := "abc".data, desc := "Inserted Sentence".data }

/-- The row the pipeline builds from `ch5` under `testOracles`. -/
def row5 : Row :=
  { id := "123-0001".data, original_revid := 123, article_url := "u".data,
    user := "U".data, timestamp := "T".data, diff_before := [],
    diff_after := "abc".data, change_type := "Text:Sentence:Insert".data,
    change_desc := "Inserted Sentence".data, bias_score_before := 0,
    bias_score_after := 1/2, bias_delta := 1/2,
    bias_label_before := "Neutral".data,
    bias_label_after := "Slightly Biased".data, ai_topic := "Politics".data,
    ai_political_stance := "Left".data, is_ip := 0, content := "abc".data }

/-- Witness for C5: the pipeline maps `ch5` to `row5`, whose delta equals
after minus before. -/
theorem processChange_bias_delta_witness :
    row5.bias_delta = row5.bias_score_after - row5.bias_score_before :=
  processChange_bias_delta testOracles 123 "u".data "U".data "T".data
    "abc".data [] 1 ch5 row5 (by with_unfolding_all rfl)

/-! ## C8: `np.array_split` partitions the article list exactly once -/

theorem chunksOfSizes_length {α : Type} (sizes : List Nat) (xs : List α) :
    (chunksOfSizes sizes xs).length = sizes.length := by
  induction sizes generalizing xs with
  | nil => rfl
  | cons s rest ih => simp [chunksOfSizes, ih]

theorem chunksOfSizes_flatten {α : Type} (sizes : List Nat) (xs : List α) :
    (chunksOfSizes sizes xs).flatten = xs.take sizes.sum := by
  induction sizes generalizing xs with
  | nil => simp [chunksOfSizes]
  | cons s rest ih =>
    simp only [chunksOfSizes, List.flatten_cons, List.sum_cons, ih, List.take_add]

theorem splitSizes_sum (m n : Nat) (hn : 1 ≤ n) : (splitSizes m n).sum = m := by
  have hmod := Nat.div_add_mod m n
  have hr : m % n < n := Nat.mod_lt _ (by omega)
  have h1 : (m % n) * (m / n) ≤ n * (m / n) := Nat.mul_le_mul_right _ hr.le
  unfold splitSizes
  rw [List.sum_append, List.sum_replicate, List.sum_replicate, smul_eq_mul,
    smul_eq_mul, Nat.mul_succ, Nat.sub_mul]
  set A := (m % n) * (m / n) with hA
  set B := n * (m / n) with hB
  clear_value A B
  omega

theorem splitSizes_length (m n : Nat) (hn : 1 ≤ n) : (splitSizes m n).length = n := by
  have hr : m % n < n := Nat.mod_lt _ (by omega)
  unfold splitSizes
  rw [List.length_append, List.length_replicate, List.length_replicate]
  omega

theorem mem_splitSizes (m n s : Nat) (h : s ∈ splitSizes m n) :
    s = m / n ∨ s = m / n + 1 := by
  unfold splitSizes at h
  rcases List.mem_append.mp h with h | h
  · exact Or.inr (List.eq_of_mem_replicate h)
  · exact Or.inl (List.eq_of_mem_replicate h)

theorem chunksOfSizes_mem_length {α : Type} (sizes : List Nat) (xs : List α)
    (h : sizes.sum ≤ xs.length) :
    ∀ c ∈ chunksOfSizes sizes xs, c.length ∈ sizes := by
  induction sizes generalizing xs with
  | nil => intro c hc; exact absurd hc (by simp [chunksOfSizes])
  | cons s rest ih =>
    intro c hc
    simp only [List.sum_cons] at h
    rcases List.mem_cons.mp hc with rfl | hc
    · have : s ≤ xs.length := by omega
      simp [List.length_take, Nat.min_eq_left this]
    · have hrest : rest.sum ≤ (xs.drop s).length := by
        rw [List.length_drop]; omega
      exact List.mem_cons_of_mem _ (ih (xs.drop s) hrest c hc)

/-- C8: for every article list of size M ≥ 0 and worker count N ≥ 1,
`np.array_split` yields N contiguous chunks of near-equal size (⌊M/N⌋ or
⌊M/N⌋ + 1) whose concatenation is the original list exactly once —
nothing duplicated, nothing dropped. -/
theorem arraySplit_partition :
    ∀ (α : Type) (xs : List α) (n : Nat), 1 ≤ n →
      (arraySplit xs n).length = n
      ∧ (arraySplit xs n).flatten = xs
      ∧ ∀ c ∈ arraySplit xs n,
          c.length = xs.length / n ∨ c.length = xs.length / n + 1 := by
  intro α xs n hn
  refine ⟨?_, ?_, ?_⟩
  · rw [arraySplit, chunksOfSizes_length, splitSizes_length _ _ hn]
  · rw [arraySplit, chunksOfSizes_flatten, splitSizes_sum _ _ hn, List.take_length]
  · intro c hc
    have hsum : (splitSizes xs.length n).sum ≤ xs.length := by
      rw [splitSizes_sum _ _ hn]
    exact mem_splitSizes _ _ _ (chunksOfSizes_mem_length _ _ hsum c hc)

/-- Witness for C8: splitting five articles over two workers. -/
theorem arraySplit_partition_witness :
    (arraySplit [1, 2, 3, 4, 5] 2).length = 2
    ∧ (arraySplit [1, 2, 3, 4, 5] 2).flatten = [1, 2, 3, 4, 5]
    ∧ ∀ c ∈ arraySplit [1, 2, 3, 4, 5] 2,
        c.length = 5 / 2 ∨ c.length = 5 / 2 + 1 :=
  arraySplit_partition Nat [1, 2, 3, 4, 5] 2 (by decide)

/-! ## C7: the context builder is bounded and total -/

theorem window_length_le (curr : Str) (best_idx L : Nat) :
    (window curr best_idx L).length ≤ L + L := by
  simp only [window, List.length_take, List.length_drop]
  omega

/-- C7: whenever the after-text (length L, non-blank) is found in the
nonempty current content, the context is a window of length at most
L + L (half of L on each side, clamped to the content bounds — the
extraction is total, so nothing is thrown at the content's edges); with
no occurrence the context is the raw after-text verbatim, and with a
blank after-text it is the raw before-text verbatim. -/
theorem build_context_spec :
    ∀ after_text before_text curr_content prev_content : Str,
      (pstrip after_text ≠ [] → curr_content ≠ [] →
        findIter after_text curr_content ≠ [] →
        (build_context after_text before_text curr_content prev_content).length
          ≤ after_text.length + after_text.length)
      ∧ (pstrip after_text ≠ [] →
          (findIter after_text curr_content = [] ∨ curr_content = []) →
          build_context after_text before_text curr_content prev_content = after_text)
      ∧ (pstrip after_text = [] →
          build_context after_text before_text curr_content prev_content = before_text) := by
  intro a b cc pc
  refine ⟨?_, ?_, ?_⟩
  · intro h1 h2 h3
    simp only [build_context]
    rw [if_pos ⟨h1, h2⟩]
    cases hfi : findIter a cc with
    | nil => exact absurd hfi h3
    | cons m0 rest => exact window_length_le cc _ a.length
  · intro h1 h2
    by_cases hcc : cc = []
    · simp only [build_context]
      rw [if_neg (fun hand => hand.2 hcc), if_pos h1]
    · rcases h2 with hfi | hfi
      · simp only [build_context]
        rw [if_pos ⟨h1, hcc⟩, hfi]
        rw [if_pos h1]
      · exact absurd hfi hcc
  · intro h1
    simp only [build_context]
    rw [if_neg (fun hand => hand.1 h1), if_neg (fun hne => hne h1)]

/-- Witness for C7: the after-text `"bc"` occurs in content `"abcd"`, and
the returned context is at most twice its length. -/
theorem build_context_spec_witness :
    (build_context "bc".data "x".data "abcd".data []).length
      ≤ "bc".data.length + "bc".data.length :=
  (build_context_spec "bc".data "x".data "abcd".data []).1
    (by decide) (by decide) (by decide)

/-! ## C9: `Text:Sentence:Change` units carry the same text on both sides -/

theorem saveChange_self (q : ℚ) : saveChange q q = decide (q > 0.3) := by
  simp only [saveChange, sub_self]
  rw [show pyabs 0 = 0 from rfl, if_neg (by norm_num)]
  split_ifs with h <;> simp [h]

theorem nodeEditChanges_type_ne (node : NodeEdit) (c : Change)
    (hc : c ∈ nodeEditChanges node) : c.type ≠ "Text:Sentence:Change".data := by
  unfold nodeEditChanges at hc
  split at hc
  · rcases List.mem_filterMap.mp hc with ⟨t, -, ht⟩
    split at ht
    · exact absurd ht (by simp)
    · rw [Option.some.injEq] at ht
      subst ht
      intro htype
      dsimp only at htype
      simp only [List.cons_append, List.nil_append] at htype
      exact absurd (List.head_eq_of_cons_eq htype) (by decide)
  · exact absurd hc (List.not_mem_nil c)

/-- C9: every change unit of kind `Text:Sentence:Change` has identical
before- and after-text; consequently any row built from it has
`bias_delta = 0` and was saved through the `score_after > 0.3` branch. -/
theorem sentence_change_same_text :
    ∀ (d : Option DiffResult) (c : Change),
      c ∈ get_structured_changes d →
      c.type = "Text:Sentence:Change".data →
      c.before = c.after
      ∧ ∀ (o : Oracles) (revid : Nat) (url user ts curr prev : Str)
          (seq : Nat) (row : Row),
          processChange o revid url user ts curr prev seq c = some row →
          row.bias_delta = 0 ∧ row.bias_score_after > 0.3 := by
  intro d c hc htype
  have hBA : c.before = c.after := by
    cases d with
    | none => exact absurd hc (List.not_mem_nil c)
    | some diff =>
      rcases List.mem_append.mp hc with hmem | hmem
      · rcases List.mem_flatten.mp hmem with ⟨l, hl, hcl⟩
        rcases List.mem_map.mp hl with ⟨node, -, rfl⟩
        exact absurd htype (nodeEditChanges_type_ne node c hcl)
      · rcases List.mem_filterMap.mp hmem with ⟨te, -, hte⟩
        unfold textEditToChange at hte
        split at hte
        · split_ifs at hte with hi hr hch
          · rw [Option.some.injEq] at hte
            subst hte
            dsimp only at htype
            exact absurd htype (by decide)
          · rw [Option.some.injEq] at hte
            subst hte
            dsimp only at htype
            exact absurd htype (by decide)
          · rw [Option.some.injEq] at hte
            subst hte
            rfl
        · exact absurd hte (by simp)
  refine ⟨hBA, ?_⟩
  intro o revid url user ts curr prev seq row h
  simp only [processChange] at h
  rw [hBA] at h
  split at h
  · exact absurd h (by simp)
  · rw [saveChange_self] at h
    cases hq : decide ((get_bias_data o (o.clean c.after)).1 > 0.3) with
    | false => rw [hq] at h; exact absurd h (by simp)
    | true =>
      rw [hq] at h
      rw [if_pos rfl] at h
      rw [Option.some.injEq] at h
      subst h
      exact ⟨sub_self _, of_decide_eq_true hq⟩

/-- A concrete diff carrying one changed sentence. -/
def d9 : Option DiffResult :=
  some { nodeEdits := [],
         textEdits := [{ type := "Sentence".data, edittype := "change".data,
                         text := "Same text.".data }] }

/-- The change unit extracted from `d9`. -/
def c9 : Change :=
  { type := "Text:Sentence:Change".data, before := "Same text.".data,
    after := "Same text.".data, desc := "Changed Sentence".data }

/-- The row the pipeline builds from `c9` under `testOracles`. -/
def row9 : Row :=
  { id := "123-0001".data, original_revid := 123, article_url := "u".data,
    user := "U".data, timestamp := "T".data, diff_before := "Same text.".data,
    diff_after := "Same text.".data, change_type := "Text:Sentence:Change".data,
    change_desc := "Changed Sentence".data, bias_score_before := 1/2,
    bias_score_after := 1/2, bias_delta := 0,
    bias_label_before := "Slightly Biased".data,
    bias_label_after := "Slightly Biased".data, ai_topic := "Politics".data,
    ai_political_stance := "Left".data, is_ip := 0,
    content := "Same text.".data }

/-- Witness for C9: the changed-sentence unit of `d9` has equal sides, and
its row has delta 0 with `score_after > 0.3`. -/
theorem sentence_change_same_text_witness :
    c9.before = c9.after ∧ row9.bias_delta = 0 ∧ row9.bias_score_after > 0.3 :=
  have h := sentence_change_same_text d9 c9 (by decide) rfl
  ⟨h.1, h.2 testOracles 123 "u".data "U".data "T".data "Same text.".data [] 1
    row9 (by with_unfolding_all rfl)⟩

/-! ## C6: a transient network error aborts the fetch loop only -/

theorem fetchRevisionsAux_append_err (acc : List Rev) (pre : List (List Rev))
    (suffix : List FetchResult) :
    fetchRevisionsAux acc
      (pre.map (fun revs => FetchResult.page revs true) ++ FetchResult.err :: suffix)
      = fetchRevisionsAux acc (pre.map (fun revs => FetchResult.page revs true)) := by
  induction pre generalizing acc with
  | nil => rfl
  | cons revs rest ih =>
    simp only [List.map_cons, List.cons_append, fetchRevisionsAux, if_pos]
    exact ih (acc ++ revs)

/-- C6 (amended): a transient network error aborts only the current
article's fetch loop — the records the pipeline produces for that
article are exactly those derived from the pages fetched before the
error — and the worker continues with every other article of its
partition unaffected. -/
theorem transient_error_aborts_fetch_only :
    (∀ (o : Oracles) (diffO : DiffOracle) (url : Str) (pre : List (List Rev))
        (suffix : List FetchResult),
      processArticle o diffO url
        (pre.map (fun revs => FetchResult.page revs true) ++ FetchResult.err :: suffix)
        = processArticle o diffO url (pre.map (fun revs => FetchResult.page revs true)))
    ∧ (∀ (o : Oracles) (diffO : DiffOracle) (responsesFor : Str → List FetchResult)
        (a : Str × Str) (pre post : List (Str × Str)),
        process_batch o diffO responsesFor (pre ++ a :: post)
          = process_batch o diffO responsesFor pre
            ++ processArticle o diffO a.1 (responsesFor a.1)
            ++ process_batch o diffO responsesFor post) := by
  constructor
  · intro o diffO url pre suffix
    unfold processArticle fetchRevisions
    rw [fetchRevisionsAux_append_err]
  · intro o diffO responsesFor a pre post
    unfold process_batch
    rw [List.map_append, List.map_cons, List.flatten_append, List.flatten_cons,
      List.append_assoc]

/-- The oldest revision of the counterexample article (empty content). -/
def rev0 : Rev := { revid := 100, user := "U".data, timestamp := "T0".data, content := [] }

/-- The newest revision of the counterexample article. -/
def rev1 : Rev :=
  { revid := 101, user := "U".data, timestamp := "T1".data,
    content := "New sentence.".data }

/-- A concrete diff oracle: inserting `"New sentence."` into an empty page. -/
def d6 : DiffOracle := fun prev curr =>
  if prev = [] ∧ curr = "New sentence.".data then
    some { nodeEdits := [],
           textEdits := [{ type := "Sentence".data, edittype := "insert".data,
                           text := "New sentence.".data }] }
  else none

/-- The API responses for the counterexample article: one successful page
carrying a continuation token, then a transient network error. -/
def responses6 : List FetchResult :=
  [FetchResult.page [rev1, rev0] true, FetchResult.err]

/-- The row produced for the counterexample article after its fetch
failed. -/
def row6 : Row :=
  { id := "101-0001".data, original_revid := 101, article_url := "A".data,
    user := "U".data, timestamp := "T1".data, diff_before := [],
    diff_after := "New sentence.".data,
    change_type := "Text:Sentence:Insert".data,
    change_desc := "Inserted Sentence".data, bias_score_before := 0,
    bias_score_after := 1/2, bias_delta := 1/2,
    bias_label_before := "Neutral".data,
    bias_label_after := "Slightly Biased".data, ai_topic := "Politics".data,
    ai_political_stance := "Left".data, is_ip := 0,
    content := "New sentence.".data }

/-- Counterexample for C6 as claimed: the fetch of article `"A"` hits a
transient network error (the second response), yet the pipeline still
produces a change record for that article afterwards, from the page
fetched before the error. -/
theorem transient_error_counterexample :
    FetchResult.err ∈ responses6
    ∧ processArticle testOracles d6 "A".data responses6 = [row6] :=
  ⟨by decide, by with_unfolding_all rfl⟩
